import Mathlib

/-!
Shallow embedding of the multi-agent workflow engine
(`agent_logic.py`, `workflow_builder.py`, `main.py`), with theorems
settling the behavioural claims about routing, memory construction,
outcome parsing, scoring, prompt adaptation and tool dispatch.

External collaborators (the LLM call, the network-backed tools, and the
graph library's merge/END sentinel) are modelled at their interface
boundary, as the specification directs; everything else is translated
from the Python source.
-/

/-- JSON-like values, modelling Python dict/list/str/int/bool/None data
as produced by `json.loads` and carried in `tool_input`. -/
inductive JValue where
  | null : JValue
  | bool (b : Bool) : JValue
  | num (n : Int) : JValue
  | str (s : String) : JValue
  | arr (elems : List JValue) : JValue
  | obj (fields : List (String × JValue)) : JValue

/-- Role/content chat message, modelling the Python dicts
`\x7b"role": ..., "content": ...\x7d` used for chat history and memory. -/
structure Msg where
  role : String
  content : String
deriving DecidableEq

/-- AgentOutcome (agent_logic.py lines 16-23): a structured decision with
the chosen tool name, its input dict, and the optional output. -/
structure AgentOutcome where
  tool_name : String
  tool_input : List (String × JValue)
  tool_output : Option String := none

/-- Escape a character for JSON string output (backslash and double quote),
modelling `json.dumps` string escaping. -/
def jsonEscapeChar (c : Char) : String :=
  if c = '\\' then "\\\\"
  else if c = '\"' then "\\\""
  else String.singleton c

/-- Escape a whole string for JSON output. -/
def jsonEscape (s : String) : String :=
  s.data.foldl (fun acc c => acc ++ jsonEscapeChar c) ""

mutual

/-- Serialization of a JSON value, modelling Python `json.dumps` with its
default separators (", " between items, ": " after keys). -/
def jsonDumps : JValue → String
  | .null => "null"
  | .bool true => "true"
  | .bool false => "false"
  | .num n => toString n
  | .str s => "\"" ++ jsonEscape s ++ "\""
  | .arr xs => "[" ++ jsonDumpsList xs ++ "]"
  | .obj fs => "\x7b" ++ jsonDumpsFields fs ++ "\x7d"

/-- Serialize a JSON array body. -/
def jsonDumpsList : List JValue → String
  | [] => ""
  | [x] => jsonDumps x
  | x :: y :: xs => jsonDumps x ++ ", " ++ jsonDumpsList (y :: xs)

/-- Serialize a JSON object body. -/
def jsonDumpsFields : List (String × JValue) → String
  | [] => ""
  | [(k, v)] => "\"" ++ jsonEscape k ++ "\": " ++ jsonDumps v
  | (k, v) :: f :: fs =>
      "\"" ++ jsonEscape k ++ "\": " ++ jsonDumps v ++ ", " ++ jsonDumpsFields (f :: fs)

end

/-- Python truthiness of the `tool_output : Optional[str]` field: `None` and
the empty string are falsy; this is the test `if o.tool_output:` in
`build_memory` (agent_logic.py line 102). -/
def hasOutput (o : AgentOutcome) : Bool :=
  match o.tool_output with
  | none => false
  | some s => s ≠ ""

/-- Assistant-tagged memory entry recording the agent's decision
(agent_logic.py lines 104-107): serializes the name and input. -/
def assistantEntry (o : AgentOutcome) : Msg :=
  ⟨"assistant", jsonDumps (.obj [("name", .str o.tool_name), ("parameters", .obj o.tool_input)])⟩

/-- User-tagged memory entry carrying the tool output
(agent_logic.py line 109). -/
def userEntry (o : AgentOutcome) : Msg :=
  ⟨"user", o.tool_output.getD ""⟩

/-- Trailing reminder entry restating the original user query
(agent_logic.py lines 113-119). -/
def reminder (user_query : String) : Msg :=
  ⟨"user",
    "Reminder: The user originally asked \x27" ++ user_query ++ "\x27. " ++
    "Use what you\x27ve learned. If everything is clear, respond with the `respond_final` tool."⟩

/-- Body of the `for o in outcomes:` loop of `build_memory`
(agent_logic.py lines 101-109): each outcome with truthy output
contributes its assistant/user entry pair, in order. -/
def memPairs : List AgentOutcome → List Msg
  | [] => []
  | o :: rest => (if hasOutput o then [assistantEntry o, userEntry o] else []) ++ memPairs rest

/-- build_memory (agent_logic.py lines 95-120): transforms past outcomes
into conversation history; appends the reminder only when the pair list
is non-empty (`if mem:`). -/
def build_memory (outcomes : List AgentOutcome) (user_query : String) : List Msg :=
  let mem := memPairs outcomes
  if mem.isEmpty then mem else mem ++ [reminder user_query]

/-- Errors raised by the embedded Python code: `MalformedDecision` for an
unparseable LLM decision (agent_logic.py lines 31-39 re-raise every parse
exception), `attributeError` for a missing attribute such as `.get` on a
pydantic model, `indexError` for `lst[-1]` on an empty list. -/
inductive PyError where
  | malformedDecision : PyError
  | attributeError : PyError
  | indexError : PyError
deriving DecidableEq

/-- Field lookup in a parsed JSON value: Python's `content_data[key]`
succeeds only on a dict that has the key (otherwise KeyError/TypeError). -/
def jGet (v : JValue) (key : String) : Option JValue :=
  match v with
  | .obj fields => fields.lookup key
  | _ => none

/-- Extraction of `raw_llm_result["message"]["content"]` as a string
(agent_logic.py line 32): `none` models the KeyError/TypeError paths
(missing key, non-dict `message`, non-string `content`). -/
def rawContent (raw : JValue) : Option String :=
  match jGet raw "message" with
  | some msg =>
      match jGet msg "content" with
      | some (.str c) => some c
      | _ => none
  | none => none

/-- parse_llm_output (agent_logic.py lines 25-39): extracts the message
content, parses it with the JSON parser `jsonLoads` (a parameter modelling
`json.loads`, which returns `none` where Python raises), then reads the
`name` and `parameters` fields; every failure path re-raises, modelled as
`Except.error .malformedDecision`. -/
def parse_llm_output (jsonLoads : String → Option JValue) (raw : JValue) :
    Except PyError AgentOutcome :=
  match rawContent raw with
  | none => .error .malformedDecision
  | some content =>
      match jsonLoads content with
      | none => .error .malformedDecision
      | some v =>
          match jGet v "name" with
          | some (.str name) =>
              match jGet v "parameters" with
              | some (.obj params) => .ok ⟨name, params, none⟩
              | _ => .error .malformedDecision
          | _ => .error .malformedDecision

/-- Escape a character for Python single-quoted string repr (backslash and
single quote). -/
def pyEscapeChar (c : Char) : String :=
  if c = '\\' then "\\\\"
  else if c = '\x27' then "\\\x27"
  else String.singleton c

/-- Escape a whole string for Python repr output. -/
def pyEscape (s : String) : String :=
  s.data.foldl (fun acc c => acc ++ pyEscapeChar c) ""

mutual

/-- Python `str()`/`repr()` of a JSON-like value, as applied to
`agent_outcome.tool_input` in `evaluate_agent_outcome`
(agent_logic.py line 88): dicts print as `\x7b'k': v\x7d`, strings
single-quoted, booleans as True/False, None as None. -/
def pyRepr : JValue → String
  | .null => "None"
  | .bool true => "True"
  | .bool false => "False"
  | .num n => toString n
  | .str s => "\x27" ++ pyEscape s ++ "\x27"
  | .arr xs => "[" ++ pyReprList xs ++ "]"
  | .obj fs => "\x7b" ++ pyReprFields fs ++ "\x7d"

/-- Python repr of a list body. -/
def pyReprList : List JValue → String
  | [] => ""
  | [x] => pyRepr x
  | x :: y :: xs => pyRepr x ++ ", " ++ pyReprList (y :: xs)

/-- Python repr of a dict body. -/
def pyReprFields : List (String × JValue) → String
  | [] => ""
  | [(k, v)] => "\x27" ++ pyEscape k ++ "\x27: " ++ pyRepr v
  | (k, v) :: f :: fs =>
      "\x27" ++ pyEscape k ++ "\x27: " ++ pyRepr v ++ ", " ++ pyReprFields (f :: fs)

end

/-- Python `s.lower()`: lower-case every character. Defined over the
character list so that it evaluates by kernel reduction. -/
def pyLower (s : String) : String :=
  String.mk (s.data.map Char.toLower)

/-- Occurrence of `pat` as a contiguous sublist at any position. -/
def hasSubList (pat : List Char) : List Char → Bool
  | [] => pat.isEmpty
  | c :: rest => pat.isPrefixOf (c :: rest) || hasSubList pat rest

/-- Whether `pat` occurs as a substring of `s` (Python's `in` operator on
strings). -/
def containsSub (s pat : String) : Bool :=
  hasSubList pat.data s.data

/-- evaluate_agent_outcome (agent_logic.py lines 74-91): starts at 1.0,
subtracts 0.5 for an empty tool name and 0.5 if
`str(tool_input).lower()` contains "not sure". Scores are rationals:
1.0, 0.5 and their differences are exact in Python floats, so `Rat`
arithmetic is a faithful model here. -/
def evaluate_agent_outcome (agent_outcome : AgentOutcome) : Rat :=
  let score0 : Rat := 1
  let score1 := if agent_outcome.tool_name = "" then score0 - 1/2 else score0
  let score2 :=
    if containsSub (pyLower (pyRepr (.obj agent_outcome.tool_input))) "not sure"
    then score1 - 1/2 else score1
  score2

/-- Python whitespace characters recognised by `str.split()` with no
arguments. -/
def isPySpace (c : Char) : Bool :=
  c = ' ' ∨ c = '\t' ∨ c = '\n' ∨ c = '\r' ∨ c = '\x0b' ∨ c = '\x0c'

/-- Python `s.split()` with no arguments: split on whitespace runs,
discarding empty pieces. -/
def pySplit (s : String) : List String :=
  (s.split isPySpace).filter (· ≠ "")

/-- is_query_ambiguous (agent_logic.py lines 43-48): a query with fewer
than 3 whitespace-delimited tokens is ambiguous. -/
def is_query_ambiguous (user_q : String) : Bool :=
  (pySplit user_q).length < 3

/-- Clarification text appended for an ambiguous query
(agent_logic.py lines 60-62). -/
def ambiguousText : String :=
  "\nThe user\x27s request seems unclear. Please prompt the user for more details."

/-- Retry text appended when a prior attempt occurred
(agent_logic.py lines 66-68). -/
def attemptText : String :=
  "\nIt seems you\x27ve made an attempt before. If still uncertain, explicitly ask the user for clarification."

/-- adapt_system_prompt (agent_logic.py lines 51-70): appends the
clarification text if the query is ambiguous, then the retry text if
attempt_count > 0. -/
def adapt_system_prompt (base_prompt user_q : String) (attempt_count : Int) : String :=
  let adapted := base_prompt
  let adapted := if is_query_ambiguous user_q then adapted ++ ambiguousText else adapted
  let adapted := if attempt_count > 0 then adapted ++ attemptText else adapted
  adapted

/-- Value of the RunState's `output` field (workflow_builder.py line 25):
declared as a dict and initialised to `\x7b\x7d` in main.py, but `tool_node`
stores a whole AgentOutcome object into it, so at run time it is either a
mapping or an outcome record. -/
inductive OutputField where
  | map (fields : List (String × JValue)) : OutputField
  | res (o : AgentOutcome) : OutputField

/-- AgentState (workflow_builder.py lines 16-26): user query, chat
history, outcome list, final output, attempt counter. -/
structure AgentState where
  user_q : String
  chat_history : List Msg
  lst_res : List AgentOutcome
  output : OutputField
  attempt_count : Int

/-- Partial RunState update returned by a node action; `none` fields are
absent from the returned Python dict. -/
structure StateUpdate where
  user_q : Option String := none
  chat_history : Option (List Msg) := none
  lst_res : Option (List AgentOutcome) := none
  output : Option OutputField := none
  attempt_count : Option Int := none

/-- Modelled from the spec: the graph engine's merge of a node's partial
update into the RunState (the engine itself is the external graph
library, not in the source tree). Outcome-list updates are concatenative;
the other fields are last-write-wins. -/
def applyUpdate (s : AgentState) (u : StateUpdate) : AgentState where
  user_q := u.user_q.getD s.user_q
  chat_history := u.chat_history.getD s.chat_history
  lst_res := s.lst_res ++ u.lst_res.getD []
  output := u.output.getD s.output
  attempt_count := u.attempt_count.getD s.attempt_count

/-- Modelled from the spec: the graph library's terminal sentinel `END`
imported by workflow_builder.py. -/
def END : String := "__end__"

/-- Tags for the three tool functions in the dispatch map; the tools
themselves are external collaborators invoked through an implementation
parameter. -/
inductive ToolFn where
  | duckduckgo : ToolFn
  | finalize : ToolFn
  | wikipedia : ToolFn
deriving DecidableEq

/-- The node-local `tool_map.get(...)` lookup of tool_node
(workflow_builder.py lines 82-87). -/
def tool_map_get (name : String) : Option ToolFn :=
  if name = "browse_duckduckgo" then some .duckduckgo
  else if name = "respond_final" then some .finalize
  else if name = "tool_wikipedia" then some .wikipedia
  else none

/-- tool_node (workflow_builder.py lines 79-102): looks up the last
outcome's tool name in the node-local map; absent names yield an empty
update; `respond_final` stores the replacement outcome into `output`;
other tools append the replacement outcome to the result list. The tool
implementations are a parameter `impl` (they are network-backed external
collaborators returning a string). `lst[-1]` on an empty list raises
IndexError. -/
def tool_node (impl : ToolFn → List (String × JValue) → String)
    (state : AgentState) : Except PyError StateUpdate :=
  match state.lst_res.getLast? with
  | none => .error .indexError
  | some last_res =>
      match tool_map_get last_res.tool_name with
      | none => .ok {}
      | some chosen_tool =>
          let tool_output_str := impl chosen_tool last_res.tool_input
          let updated_res : AgentOutcome :=
            ⟨last_res.tool_name, last_res.tool_input, some tool_output_str⟩
          if updated_res.tool_name = "respond_final" then
            .ok { output := some (.res updated_res) }
          else
            .ok { lst_res := some [updated_res] }

/-- Python `s.startswith(pre)`, over the character lists. -/
def pyStartsWith (s pre : String) : Bool :=
  pre.data.isPrefixOf s.data

/-- check_human_decision (workflow_builder.py lines 113-116): routes to
"Agent2" when the lowered external input starts with "y", otherwise to
the terminal sentinel. The blocking `input(...)` read is modelled by
passing the read string as an argument. -/
def check_human_decision (user_choice : String) : String :=
  if pyStartsWith (pyLower user_choice) "y" then "Agent2" else END

/-- determine_next_tool (workflow_builder.py lines 119-138): with no
outcomes routes to "respond_final"; with an empty last tool name
increments attempt_count in place and routes to "Agent1"; otherwise
routes to the last tool name. The in-place `state["attempt_count"] += 1`
is modelled by returning the updated state alongside the route. -/
def determine_next_tool (state : AgentState) : String × AgentState :=
  match state.lst_res.getLast? with
  | none => ("respond_final", state)
  | some last_outcome =>
      if last_outcome.tool_name = "" then
        ("Agent1", { state with attempt_count := state.attempt_count + 1 })
      else
        (last_outcome.tool_name, state)

/-- Python `dict.get(key, default)` applied to the RunState's `output`
field by second_agent_node (workflow_builder.py line 65): works on a
mapping, but an AgentOutcome pydantic model has no `.get` attribute, so
the call raises AttributeError. -/
def outputGet (o : OutputField) (key : String) (default : JValue) :
    Except PyError JValue :=
  match o with
  | .map fields => .ok ((fields.lookup key).getD default)
  | .res _ => .error .attributeError

/-- Query extraction of second_agent_node (workflow_builder.py line 65):
`state["output"].get("tool_output", "")`, the value passed as the second
agent's user query; the LLM call that would follow is an external
collaborator and is never reached when this extraction raises. -/
def second_agent_query (state : AgentState) : Except PyError JValue :=
  outputGet state.output "tool_output" (.str "")

/-- initial_state (main.py lines 23-29): the caller-supplied RunState
with empty outcome list, empty output mapping and zero attempts. -/
def initial_state : AgentState where
  user_q := "Who died on September 9, 2024?"
  chat_history :=
    [⟨"user", "Hello."⟩,
     ⟨"assistant", "Hi, what\x27s your question?"⟩,
     ⟨"user", "I\x27d like some info."⟩,
     ⟨"assistant", "Sure, what\x27s on your mind?"⟩]
  lst_res := []
  output := .map []
  attempt_count := 0

/-! ## Helper lemmas -/

/-- Merging the empty update leaves every field of the state unchanged. -/
theorem applyUpdate_empty (s : AgentState) : applyUpdate s {} = s := by
  cases s
  simp [applyUpdate]

/-- The memory pair list is the flat map of the entry pair over the
outcomes with truthy output. -/
theorem memPairs_eq_flatMap (outcomes : List AgentOutcome) :
    memPairs outcomes =
      (outcomes.filter (fun o => hasOutput o)).flatMap
        (fun o => [assistantEntry o, userEntry o]) := by
  induction outcomes with
  | nil => rfl
  | cons o rest ih =>
      by_cases h : hasOutput o <;> simp [memPairs, h, ih, List.filter_cons]

/-- Length of the memory pair list: two entries per outcome with truthy
output. -/
theorem memPairs_length (outcomes : List AgentOutcome) :
    (memPairs outcomes).length = 2 * outcomes.countP (fun o => hasOutput o) := by
  induction outcomes with
  | nil => rfl
  | cons o rest ih =>
      by_cases h : hasOutput o
      · simp [memPairs, h, ih, List.countP_cons]
        omega
      · simp [memPairs, h, ih, List.countP_cons]

/-- The memory pair list distributes over list append. -/
theorem memPairs_append (xs ys : List AgentOutcome) :
    memPairs (xs ++ ys) = memPairs xs ++ memPairs ys := by
  induction xs with
  | nil => rfl
  | cons o rest ih => simp [memPairs, ih]

/-- Dispatch equality for the finalize action: with a last outcome named
"respond_final", tool_node returns exactly the update that stores the
replacement outcome record into the output field. -/
theorem tool_node_finalize_eq (impl : ToolFn → List (String × JValue) → String)
    (s : AgentState) (last : AgentOutcome)
    (hlast : s.lst_res.getLast? = some last)
    (hname : last.tool_name = "respond_final") :
    tool_node impl s =
      .ok { output := some (.res ⟨"respond_final", last.tool_input,
              some (impl .finalize last.tool_input)⟩) } := by
  simp [tool_node, hlast, hname, tool_map_get]

/-! ## Claim theorems -/

/-- C1: for a run-state with a non-empty outcomes list, if the last
outcome's tool name is empty then determine_next_tool returns "Agent1"
and the attempt counter is incremented by exactly 1; if the last
outcome's tool name is "respond_final" then it returns "respond_final". -/
theorem determine_next_tool_routing (s : AgentState) (last : AgentOutcome)
    (hlast : s.lst_res.getLast? = some last) :
    (last.tool_name = "" →
      determine_next_tool s =
        ("Agent1", { s with attempt_count := s.attempt_count + 1 })) ∧
    (last.tool_name = "respond_final" →
      determine_next_tool s = ("respond_final", s)) := by
  constructor
  · intro h; simp [determine_next_tool, hlast, h]
  · intro h; simp [determine_next_tool, hlast, h]

/-- Witness for C1 at two concrete states. -/
theorem determine_next_tool_routing_witness :
    determine_next_tool ⟨"q", [], [⟨"", [], none⟩], .map [], 4⟩ =
      ("Agent1", ⟨"q", [], [⟨"", [], none⟩], .map [], 4 + 1⟩) ∧
    determine_next_tool ⟨"q", [], [⟨"respond_final", [], none⟩], .map [], 4⟩ =
      ("respond_final", ⟨"q", [], [⟨"respond_final", [], none⟩], .map [], 4⟩) :=
  ⟨(determine_next_tool_routing ⟨"q", [], [⟨"", [], none⟩], .map [], 4⟩
      ⟨"", [], none⟩ (by rfl)).1 rfl,
   (determine_next_tool_routing ⟨"q", [], [⟨"respond_final", [], none⟩], .map [], 4⟩
      ⟨"respond_final", [], none⟩ (by rfl)).2 rfl⟩

/-- C6 as stated is false: the gate compares by lowercased prefix "y",
not by equality with "yes", so the input "y" (which is not "yes") routes
to "Agent2" instead of the terminal sentinel. -/
theorem check_human_decision_counterexample :
    check_human_decision "y" = "Agent2" ∧ "y" ≠ "yes" ∧ "Agent2" ≠ END :=
  ⟨by decide, by decide, by decide⟩

/-- C6 amended: check_human_decision routes to "Agent2" exactly when the
lowercased input starts with "y", and to the terminal sentinel END
otherwise. -/
theorem check_human_decision_routes (user_choice : String) :
    (check_human_decision user_choice = "Agent2" ↔
      pyStartsWith (pyLower user_choice) "y" = true) ∧
    (check_human_decision user_choice = END ↔
      pyStartsWith (pyLower user_choice) "y" = false) := by
  unfold check_human_decision END
  by_cases h : pyStartsWith (pyLower user_choice) "y" <;> simp [h]

/-- C9: adapt_system_prompt leaves the base prompt unchanged in front and
appends the clarification text exactly when the query has fewer than 3
whitespace-delimited tokens, then the prior-attempt text exactly when the
attempt count is positive; the two conditions act independently. -/
theorem adapt_system_prompt_spec (base_prompt user_q : String)
    (attempt_count : Int) :
    adapt_system_prompt base_prompt user_q attempt_count =
      base_prompt ++
        (if (pySplit user_q).length < 3 then ambiguousText else "") ++
        (if attempt_count > 0 then attemptText else "") := by
  unfold adapt_system_prompt is_query_ambiguous
  by_cases h1 : (pySplit user_q).length < 3 <;>
    by_cases h2 : attempt_count > 0 <;>
      simp [h1, h2, String.append_empty, String.append_assoc]

/-- C2 as stated is false: an Outcome whose output is present but equal
to the empty string counts as "present" yet is skipped by the truthiness
test, so the memory has length 0 instead of 2 * 1 + 1 = 3. -/
theorem build_memory_counterexample :
    (AgentOutcome.mk "t" [] (some "")).tool_output.isSome = true ∧
    (build_memory [⟨"t", [], some ""⟩] "q").length = 0 ∧
    ¬ (build_memory [⟨"t", [], some ""⟩] "q").length = 2 * 1 + 1 := by
  refine ⟨rfl, rfl, by decide⟩

/-- C2 amended: with "present output" read as present AND non-empty (the
code's truthiness test), build_memory returns the empty sequence when no
outcome has such an output, and otherwise a sequence of length
2 * count + 1 in which each contributing outcome yields its
assistant-tagged serialization followed by its user-tagged output, with
the single trailing reminder entry restating the query. -/
theorem build_memory_length_structure (outcomes : List AgentOutcome)
    (user_query : String) :
    (outcomes.countP (fun o => hasOutput o) = 0 →
      build_memory outcomes user_query = []) ∧
    (outcomes.countP (fun o => hasOutput o) ≠ 0 →
      build_memory outcomes user_query =
        (outcomes.filter (fun o => hasOutput o)).flatMap
          (fun o => [assistantEntry o, userEntry o]) ++ [reminder user_query] ∧
      (build_memory outcomes user_query).length =
        2 * outcomes.countP (fun o => hasOutput o) + 1) := by
  have hlen := memPairs_length outcomes
  have hflat := memPairs_eq_flatMap outcomes
  constructor
  · intro h0
    have : (memPairs outcomes).length = 0 := by omega
    have hnil : memPairs outcomes = [] := by
      exact List.length_eq_zero.mp this
    simp [build_memory, hnil]
  · intro hne
    have : (memPairs outcomes).length ≠ 0 := by omega
    have hnnil : ¬ memPairs outcomes = [] := by
      intro hc
      simp [hc] at this
    have hfalse : (memPairs outcomes).isEmpty = false := by
      simp [List.isEmpty_iff, hnnil]
    constructor
    · rw [build_memory, hfalse]
      simp [hflat]
    · rw [build_memory, hfalse]
      simp
      omega

/-- Witness for C2's amended theorem at a one-outcome list. -/
theorem build_memory_length_structure_witness :
    (build_memory [⟨"a", [("q", .str "x")], some "out"⟩] "hi").length =
      2 * ([⟨"a", [("q", .str "x")], some "out"⟩] : List AgentOutcome).countP
            (fun o => hasOutput o) + 1 :=
  ((build_memory_length_structure [⟨"a", [("q", .str "x")], some "out"⟩] "hi").2
    (by decide)).2

/-- C10: an Outcome whose output is the empty string behaves exactly like
one whose output is absent: wherever it sits in the list, build_memory
gives the same result as with that outcome's output set to none, and the
same result as with the outcome removed; in particular it contributes no
entry pair and does not by itself trigger the reminder. -/
theorem build_memory_empty_output_inert (xs ys : List AgentOutcome)
    (user_query : String) (o : AgentOutcome) (h : o.tool_output = some "") :
    build_memory (xs ++ o :: ys) user_query =
      build_memory (xs ++ ⟨o.tool_name, o.tool_input, none⟩ :: ys) user_query ∧
    build_memory (xs ++ o :: ys) user_query =
      build_memory (xs ++ ys) user_query := by
  have hno : hasOutput o = false := by
    simp [hasOutput, h]
  have key : memPairs (xs ++ o :: ys) = memPairs (xs ++ ys) := by
    rw [memPairs_append, memPairs_append]
    simp [memPairs, hno]
  have key2 : memPairs (xs ++ ⟨o.tool_name, o.tool_input, none⟩ :: ys) =
      memPairs (xs ++ ys) := by
    rw [memPairs_append, memPairs_append]
    simp [memPairs, hasOutput]
  constructor
  · simp [build_memory, key, key2]
  · simp [build_memory, key]

/-- Witness for C10 with the inert outcome between two others. -/
theorem build_memory_empty_output_inert_witness :
    build_memory [⟨"a", [], some "o1"⟩, ⟨"b", [], some ""⟩] "q" =
      build_memory [⟨"a", [], some "o1"⟩, ⟨"b", [], none⟩] "q" ∧
    build_memory [⟨"a", [], some "o1"⟩, ⟨"b", [], some ""⟩] "q" =
      build_memory [⟨"a", [], some "o1"⟩] "q" :=
  build_memory_empty_output_inert [⟨"a", [], some "o1"⟩] [] "q"
    ⟨"b", [], some ""⟩ rfl

/-- C3: whenever the raw decision response has no extractable string
payload, or the payload does not parse, or the parsed value lacks the
name field or the parameters field, parse_llm_output fails with the
MalformedDecision error and never returns an Outcome. -/
theorem parse_llm_output_malformed (jsonLoads : String → Option JValue)
    (raw : JValue)
    (h : rawContent raw = none ∨
      (∃ c, rawContent raw = some c ∧ jsonLoads c = none) ∨
      (∃ c v, rawContent raw = some c ∧ jsonLoads c = some v ∧
        (jGet v "name" = none ∨ jGet v "parameters" = none))) :
    parse_llm_output jsonLoads raw = .error .malformedDecision := by
  rcases h with h | ⟨c, hc, hj⟩ | ⟨c, v, hc, hv, hnp⟩
  · simp [parse_llm_output, h]
  · simp [parse_llm_output, hc, hj]
  · rcases hnp with hn | hp
    · simp [parse_llm_output, hc, hv, hn]
    · cases hnv : jGet v "name" with
      | none => simp [parse_llm_output, hc, hv, hnv]
      | some val => cases val <;> simp [parse_llm_output, hc, hv, hnv, hp]

/-- Witness for C3: a response whose content does not parse. -/
theorem parse_llm_output_malformed_witness :
    parse_llm_output (fun _ => none)
        (.obj [("message", .obj [("content", .str "oops")])]) =
      .error .malformedDecision :=
  parse_llm_output_malformed (fun _ => none)
    (.obj [("message", .obj [("content", .str "oops")])])
    (Or.inr (Or.inl ⟨"oops", rfl, rfl⟩))

/-- C8: the score is 1 when the tool name is non-empty and the lowered
serialized input has no "not sure" substring, 1/2 when exactly one of
the two deductions applies, 0 when both apply, and always lies in the
interval from 0 to 1. -/
theorem evaluate_agent_outcome_spec (o : AgentOutcome) :
    ((o.tool_name ≠ "" ∧
        containsSub (pyLower (pyRepr (.obj o.tool_input))) "not sure" = false) →
      evaluate_agent_outcome o = 1) ∧
    (((o.tool_name = "" ∧
        containsSub (pyLower (pyRepr (.obj o.tool_input))) "not sure" = false) ∨
      (o.tool_name ≠ "" ∧
        containsSub (pyLower (pyRepr (.obj o.tool_input))) "not sure" = true)) →
      evaluate_agent_outcome o = 1/2) ∧
    ((o.tool_name = "" ∧
        containsSub (pyLower (pyRepr (.obj o.tool_input))) "not sure" = true) →
      evaluate_agent_outcome o = 0) ∧
    0 ≤ evaluate_agent_outcome o ∧ evaluate_agent_outcome o ≤ 1 := by
  unfold evaluate_agent_outcome
  by_cases h1 : o.tool_name = "" <;>
    by_cases h2 : containsSub (pyLower (pyRepr (.obj o.tool_input))) "not sure" <;>
      simp [h1, h2] <;> norm_num

/-- Witness for C8 at a concrete certain outcome and a concrete doubly
uncertain outcome. -/
theorem evaluate_agent_outcome_spec_witness :
    evaluate_agent_outcome ⟨"browse_duckduckgo", [("query", .str "x")], none⟩ = 1 ∧
    evaluate_agent_outcome ⟨"", [("m", .str "I am Not Sure")], none⟩ = 0 :=
  ⟨(evaluate_agent_outcome_spec ⟨"browse_duckduckgo", [("query", .str "x")], none⟩).1
      ⟨by decide, by decide⟩,
   (evaluate_agent_outcome_spec ⟨"", [("m", .str "I am Not Sure")], none⟩).2.2.1
      ⟨rfl, by decide⟩⟩

/-- C4: when the last outcome's tool name is the finalize action
"respond_final", tool_node returns an update that sets the finalized
output field and contains no outcomes-list entry, so after the engine's
merge the outcomes list is exactly what it was before. -/
theorem tool_node_finalize (impl : ToolFn → List (String × JValue) → String)
    (s : AgentState) (last : AgentOutcome)
    (hlast : s.lst_res.getLast? = some last)
    (hname : last.tool_name = "respond_final") :
    tool_node impl s =
      .ok { output := some (.res ⟨"respond_final", last.tool_input,
              some (impl .finalize last.tool_input)⟩) } ∧
    (∀ u, tool_node impl s = .ok u →
      u.lst_res = none ∧ (applyUpdate s u).lst_res = s.lst_res) := by
  have heq := tool_node_finalize_eq impl s last hlast hname
  refine ⟨heq, ?_⟩
  intro u hu
  rw [heq] at hu
  injection hu with h
  subst h
  exact ⟨rfl, by simp [applyUpdate]⟩

/-- Witness for C4 at a concrete finalize dispatch. -/
theorem tool_node_finalize_witness :
    tool_node (fun _ _ => "Paris")
        ⟨"q", [], [⟨"respond_final", [("message", .str "Paris")], none⟩], .map [], 0⟩ =
      .ok { output := some (.res ⟨"respond_final", [("message", .str "Paris")],
              some "Paris"⟩) } :=
  (tool_node_finalize (fun _ _ => "Paris")
    ⟨"q", [], [⟨"respond_final", [("message", .str "Paris")], none⟩], .map [], 0⟩
    ⟨"respond_final", [("message", .str "Paris")], none⟩ (by rfl) rfl).1

/-- C5: the initial run-state's output field is the empty mapping; after
a finalize dispatch, the output field holds the entire executed outcome
record (name, input and output), not the message text; and the secondary
decision node's mapping-style get of "tool_output" on that stored record
raises AttributeError, so the second agent is never invoked with the
finalize message as its query. -/
theorem second_agent_query_after_finalize
    (impl : ToolFn → List (String × JValue) → String)
    (s : AgentState) (last : AgentOutcome)
    (hlast : s.lst_res.getLast? = some last)
    (hname : last.tool_name = "respond_final") :
    initial_state.output = .map [] ∧
    tool_node impl s =
      .ok { output := some (.res ⟨"respond_final", last.tool_input,
              some (impl .finalize last.tool_input)⟩) } ∧
    (∀ u, tool_node impl s = .ok u →
      (applyUpdate s u).output =
        .res ⟨"respond_final", last.tool_input, some (impl .finalize last.tool_input)⟩ ∧
      second_agent_query (applyUpdate s u) = .error .attributeError) := by
  have heq := tool_node_finalize_eq impl s last hlast hname
  refine ⟨rfl, heq, ?_⟩
  intro u hu
  rw [heq] at hu
  injection hu with h
  subst h
  constructor
  · simp [applyUpdate]
  · simp [second_agent_query, applyUpdate, outputGet]

/-- Witness for C5 at a concrete finalize dispatch. -/
theorem second_agent_query_after_finalize_witness :
    second_agent_query
        (applyUpdate
          ⟨"q", [], [⟨"respond_final", [("message", .str "Paris")], none⟩], .map [], 0⟩
          { output := some (.res ⟨"respond_final", [("message", .str "Paris")],
              some "Paris"⟩) }) =
      .error .attributeError :=
  ((second_agent_query_after_finalize (fun _ _ => "Paris")
      ⟨"q", [], [⟨"respond_final", [("message", .str "Paris")], none⟩], .map [], 0⟩
      ⟨"respond_final", [("message", .str "Paris")], none⟩ (by rfl) rfl).2.2
    { output := some (.res ⟨"respond_final", [("message", .str "Paris")],
        some "Paris"⟩) }
    (second_agent_query_after_finalize (fun _ _ => "Paris")
      ⟨"q", [], [⟨"respond_final", [("message", .str "Paris")], none⟩], .map [], 0⟩
      ⟨"respond_final", [("message", .str "Paris")], none⟩ (by rfl) rfl).2.1).2

/-- C7: when the last outcome's tool name is non-empty and none of the
three dispatch-map keys, tool_node returns the empty update and the
merged state equals the original state in every field. -/
theorem tool_node_unknown (impl : ToolFn → List (String × JValue) → String)
    (s : AgentState) (last : AgentOutcome)
    (hlast : s.lst_res.getLast? = some last)
    (_hne : last.tool_name ≠ "")
    (hnot : ¬ last.tool_name ∈
      (["browse_duckduckgo", "respond_final", "tool_wikipedia"] : List String)) :
    tool_node impl s = .ok {} ∧ applyUpdate s {} = s := by
  simp [List.mem_cons] at hnot
  obtain ⟨h1, h2, h3⟩ := hnot
  have hmap : tool_map_get last.tool_name = none := by
    simp [tool_map_get, h1, h2, h3]
  exact ⟨by simp [tool_node, hlast, hmap], applyUpdate_empty s⟩

/-- Witness for C7 at a concrete unknown tool name. -/
theorem tool_node_unknown_witness :
    tool_node (fun _ _ => "r")
        ⟨"q", [], [⟨"mystery_tool", [], none⟩], .map [], 0⟩ = .ok {} ∧
    applyUpdate ⟨"q", [], [⟨"mystery_tool", [], none⟩], .map [], 0⟩ {} =
      ⟨"q", [], [⟨"mystery_tool", [], none⟩], .map [], 0⟩ :=
  tool_node_unknown (fun _ _ => "r")
    ⟨"q", [], [⟨"mystery_tool", [], none⟩], .map [], 0⟩
    ⟨"mystery_tool", [], none⟩ (by rfl) (by decide) (by decide)
